import Mathlib

/-!
# Verification of the credential/session lifecycle

A shallow embedding of the four server variants of this repository
(`src/server.js`, `src/backend/server.js`, `src/unnamed/part_000`,
`src/unnamed/part_001`): the users table, the password hasher, the
session-token codec, and the three request handlers
(register / login / check-auth) of each variant, followed by theorems
about the claims of the specification.

Conventions of the embedding:
* A request body field that may be absent (JavaScript `undefined`) is an
  `Option String`; the JavaScript falsiness test `!x` on such a field is
  true exactly for the absent field and the empty string.
* The database is a list of rows plus the AUTO_INCREMENT counter.  Each
  handler that runs two queries (the duplicate pre-check SELECT and the
  INSERT) receives the table state seen by each query separately
  (`s1` for the SELECT, `s2` for the INSERT), so that the race between the
  pre-check and the store-level uniqueness constraint is expressible; the
  sequential case is `s1 = s2`.
* bcrypt is modelled by its library contract: `hash` incorporates a random
  salt and a cost factor and is one-way only in the sense that `compare`
  is the sole observer; `compare p h` holds exactly when `h` was produced
  from `p`.
* A string on the wire (in particular the word after `Bearer` in the
  Authorization header) is either an ordinary string or a serialized
  signed token; `jsonwebtoken.verify` checks the signature (the signing
  secret) first and then the expiry (`now >= exp` is expired), and any
  non-token string fails verification.  An Authorization header is
  modelled as its list of space-separated words, since the handlers only
  ever test a `Bearer ` prefix and take `split(h, ' ')[1]`.
-/

/-- The character class of the validation regex `[a-zA-Z0-9_]`
(`src/server.js` line 145, `src/backend/server.js` line 59). -/
def goodChar (c : Char) : Bool :=
  decide (97 ≤ c.toNat ∧ c.toNat ≤ 122) || decide (65 ≤ c.toNat ∧ c.toNat ≤ 90) ||
  decide (48 ≤ c.toNat ∧ c.toNat ≤ 57) || decide (c.toNat = 95)

/-- The JavaScript whitespace class trimmed by `String.prototype.trim`. -/
def jsWhitespace (c : Char) : Bool :=
  decide (9 ≤ c.toNat ∧ c.toNat ≤ 13) || decide (c.toNat = 32) || decide (c.toNat = 160) ||
  decide (c.toNat = 0x1680) || decide (0x2000 ≤ c.toNat ∧ c.toNat ≤ 0x200a) ||
  decide (c.toNat = 0x2028) || decide (c.toNat = 0x2029) || decide (c.toNat = 0x202f) ||
  decide (c.toNat = 0x205f) || decide (c.toNat = 0x3000) || decide (c.toNat = 0xfeff)

/-- Drop leading and trailing whitespace from a character list. -/
def jsTrimCore (l : List Char) : List Char :=
  ((l.dropWhile jsWhitespace).reverse.dropWhile jsWhitespace).reverse

/-- JavaScript `String.prototype.trim`. -/
def jsTrim (s : String) : String := String.mk (jsTrimCore s.data)

/-- JavaScript falsiness of an optional string field: `!x` is true for an
absent field (`undefined`) and for the empty string. -/
def isFalsy : Option String → Bool
  | none => true
  | some s => s == ""

/-- A bcrypt digest, modelled by its library contract: it determines the
plaintext it was produced from only through `bcryptCompare`, and records
the random salt and the cost factor, so equal passwords hashed with
different salts give different digests. -/
structure BHash where
  plain : String
  salt : Nat
  cost : Nat
deriving DecidableEq

/-- `bcryptjs.hash(p, cost)` with the salt drawn at `salt`. -/
def bcryptHash (p : String) (salt cost : Nat) : BHash := ⟨p, salt, cost⟩

/-- `bcryptjs.compare(p, h)`: true exactly when `h` digests `p`. -/
def bcryptCompare (p : String) (h : BHash) : Bool := p == h.plain

/-- The claim set of a signed token.  Each variant signs a different
subset of keys; an unsigned key is `none` (JavaScript `undefined`). -/
structure JwtClaims where
  userId : Option Nat := none
  id : Option Nat := none
  username : Option String := none
deriving DecidableEq

/-- A string on the wire: an ordinary string, or the serialization of a
signed token (claims, issued-at, expiry, signing secret). -/
inductive JwtStr where
  | raw (s : String)
  | signed (claims : JwtClaims) (iat : Nat) (exp : Nat) (secret : String)
deriving DecidableEq

/-- `jsonwebtoken.sign(claims, secret, expiresIn)` at time `iat` with a
time-to-live of `ttl` seconds. -/
def jwtSign (c : JwtClaims) (secret : String) (iat ttl : Nat) : JwtStr :=
  .signed c iat (iat + ttl) secret

/-- The two verification failures of `jsonwebtoken.verify`:
`JsonWebTokenError` (malformed or bad signature) and `TokenExpiredError`. -/
inductive JwtError where
  | invalidToken
  | expired
deriving DecidableEq

/-- `jsonwebtoken.verify(t, secret)` at time `now`: a non-token string or a
wrong secret fails the signature check; a good signature is then checked
against the expiry (`now ≥ exp` is expired). -/
def jwtVerify : JwtStr → String → Nat → Except JwtError JwtClaims
  | .raw _, _, _ => .error .invalidToken
  | .signed c _ e sec, secret, now =>
    if sec ≠ secret then .error .invalidToken
    else if e ≤ now then .error .expired
    else .ok c

/-- The `username` claim of a serialized token, if any. -/
def tokenUsername : JwtStr → Option String
  | .raw _ => none
  | .signed c _ _ _ => c.username

/-- The `userId` claim of a serialized token, if any. -/
def tokenUserId : JwtStr → Option Nat
  | .raw _ => none
  | .signed c _ _ _ => c.userId

/-- The validity window (expiry minus issued-at, in seconds) of a
serialized token. -/
def tokenWindow : JwtStr → Option Nat
  | .raw _ => none
  | .signed _ iat e _ => some (e - iat)

/-- One row of the `users` table: surrogate id, username, bcrypt digest
(the `password` column). -/
structure UserRec where
  id : Nat
  username : String
  password : BHash
deriving DecidableEq

/-- The `users` table: its rows plus the AUTO_INCREMENT counter. -/
structure Store where
  users : List UserRec
  nextId : Nat
deriving DecidableEq

/-- `SELECT ... FROM users WHERE username = ?`. -/
def findByUsername (s : Store) (u : String) : Option UserRec :=
  s.users.find? (fun r => r.username == u)

/-- `SELECT ... FROM users WHERE id = ?` (the data model's point lookup by
surrogate key; no handler of this repository issues it). -/
def findById (s : Store) (i : Nat) : Option UserRec :=
  s.users.find? (fun r => r.id == i)

/-- The store-level error signal of the UNIQUE constraint on `username`
(MySQL `ER_DUP_ENTRY`). -/
inductive DbError where
  | dupEntry
deriving DecidableEq

/-- `INSERT INTO users (username, password) VALUES (?, ?)`: enforces the
UNIQUE constraint, assigns the AUTO_INCREMENT id, and returns the new id
(`result.insertId`) and table state. -/
def insertUser (s : Store) (u : String) (h : BHash) : Except DbError (Nat × Store) :=
  if s.users.any (fun r => r.username == u) then .error .dupEntry
  else .ok (s.nextId, ⟨s.users ++ [⟨s.nextId, u, h⟩], s.nextId + 1⟩)

/-- An id/username pair as serialized into a response body; a key the
handler leaves out (for example part_000 responses have no id) is `none`. -/
structure UserOut where
  id : Option Nat
  username : Option String
deriving DecidableEq

/-- A JSON response: HTTP status (200 for a bare `res.json`) and the body
keys the handlers of this repository ever emit; an absent key is `none`. -/
structure Resp where
  status : Nat := 200
  success : Option Bool := none
  message : Option String := none
  error : Option String := none
  token : Option JwtStr := none
  user : Option UserOut := none
  isLoggedIn : Option Bool := none
deriving DecidableEq

/-- `validateUsername` of `src/server.js` lines 138-149: absent or
short-after-trim, then length above 50, then the `[a-zA-Z0-9_]+` regex
(the regex demands a nonempty all-good-characters string).  The absent and
empty cases both take the first branch, as in the source (`!username`). -/
def validateUsername : Option String → Option String
  | none => some "Username must be at least 3 characters long"
  | some u =>
    if (jsTrim u).length < 3 then some "Username must be at least 3 characters long"
    else if 50 < u.length then some "Username must be less than 50 characters"
    else if u.data.all goodChar ∧ u ≠ "" then none
    else some "Username can only contain letters, numbers, and underscores"

/-- `validatePassword` of `src/server.js` lines 151-159. -/
def validatePassword : Option String → Option String
  | none => some "Password must be at least 6 characters long"
  | some p =>
    if p.length < 6 then some "Password must be at least 6 characters long"
    else if 100 < p.length then some "Password is too long"
    else none

/-- `validateUsername` of `src/backend/server.js` lines 57-61: no upper
length bound. -/
def validateUsernameB : Option String → Option String
  | none => some "Username must be at least 3 characters"
  | some u =>
    if (jsTrim u).length < 3 then some "Username must be at least 3 characters"
    else if u.data.all goodChar ∧ u ≠ "" then none
    else some "Username can only contain letters, numbers, and underscores"

/-- `validatePassword` of `src/backend/server.js` lines 63-66. -/
def validatePasswordB : Option String → Option String
  | none => some "Password must be at least 6 characters"
  | some p =>
    if p.length < 6 then some "Password must be at least 6 characters"
    else none

/-- `POST /api/register` of `src/server.js` lines 365-471: validate, then
the duplicate pre-check SELECT against `s1`, bcrypt at cost 12, the INSERT
against `s2`, and the token for the new id and trimmed username
(`expiresIn: 7d`).  An `ER_DUP_ENTRY` thrown by the INSERT is caught and
mapped to 400 (lines 454-456). -/
def mainRegister (s1 s2 : Store) (u? p? : Option String) (salt iat : Nat)
    (secret : String) : Resp × Store :=
  match validateUsername u? with
  | some e => ({ status := 400, success := some false, error := some e }, s2)
  | none =>
  match validatePassword p? with
  | some e => ({ status := 400, success := some false, error := some e }, s2)
  | none =>
    let u := jsTrim (u?.getD "")
    if (findByUsername s1 u).isSome then
      ({ status := 400, success := some false,
         error := some "Username is already taken. Please choose another." }, s2)
    else
      match insertUser s2 u (bcryptHash (p?.getD "") salt 12) with
      | .error .dupEntry =>
        ({ status := 400, success := some false,
           error := some "Username is already taken." }, s2)
      | .ok (newId, s3) =>
        ({ status := 201, success := some true, message := some "Registration successful!",
           token := some (jwtSign { userId := some newId, username := some u } secret iat (7 * 86400)),
           user := some ⟨some newId, some u⟩ }, s3)

/-- `POST /api/login` of `src/server.js` lines 474-545: falsy-field check,
lookup of the trimmed username, bcrypt compare, token for the stored
id/username (`expiresIn: 7d`). -/
def mainLogin (s : Store) (u? p? : Option String) (secret : String) (iat : Nat) : Resp :=
  if isFalsy u? || isFalsy p? then
    { status := 400, success := some false, error := some "Username and password are required" }
  else
    match findByUsername s (jsTrim (u?.getD "")) with
    | none => { status := 401, success := some false, error := some "Invalid username or password" }
    | some user =>
      if bcryptCompare (p?.getD "") user.password then
        { status := 200, success := some true, message := some "Login successful",
          token := some (jwtSign { userId := some user.id, username := some user.username } secret iat (7 * 86400)),
          user := some ⟨some user.id, some user.username⟩ }
      else
        { status := 401, success := some false, error := some "Invalid username or password" }

/-- The token extraction of `GET /api/check-auth` in `src/server.js` and
`src/backend/server.js`: the header must exist and start with `Bearer `
(first word `Bearer` followed by a space, hence a second word, which
`split(' ')[1]` then selects). -/
def bearerWord : Option (List JwtStr) → Option JwtStr
  | some (.raw b :: t :: _) => if b == "Bearer" then some t else none
  | _ => none

/-- `GET /api/check-auth` of `src/server.js` lines 548-589: a missing or
non-`Bearer` header answers 200 without a user; a verification failure
(`JsonWebTokenError` or `TokenExpiredError`) answers 200 with
`isLoggedIn: false`; a verified token answers 200 with the embedded
`userId`/`username` claims. -/
def mainCheckAuth (hdr : Option (List JwtStr)) (secret : String) (now : Nat) : Resp :=
  match bearerWord hdr with
  | none => { isLoggedIn := some false, message := some "No token provided" }
  | some t =>
    match jwtVerify t secret now with
    | .ok c => { isLoggedIn := some true, user := some ⟨c.userId, c.username⟩ }
    | .error _ => { isLoggedIn := some false, message := some "Invalid or expired token" }

/-- `POST /api/register` of `src/backend/server.js` lines 76-122: backend
validators, pre-check against `s1`, bcrypt cost 12, INSERT against `s2`,
7-day token.  The catch block (lines 118-121) does not inspect the error
code, so an `ER_DUP_ENTRY` from the INSERT becomes a generic 500. -/
def backendRegister (s1 s2 : Store) (u? p? : Option String) (salt iat : Nat)
    (secret : String) : Resp × Store :=
  match validateUsernameB u? with
  | some e => ({ status := 400, success := some false, error := some e }, s2)
  | none =>
  match validatePasswordB p? with
  | some e => ({ status := 400, success := some false, error := some e }, s2)
  | none =>
    let u := jsTrim (u?.getD "")
    if (findByUsername s1 u).isSome then
      ({ status := 400, success := some false, error := some "Username already taken" }, s2)
    else
      match insertUser s2 u (bcryptHash (p?.getD "") salt 12) with
      | .error .dupEntry =>
        ({ status := 500, success := some false, error := some "Registration failed" }, s2)
      | .ok (newId, s3) =>
        ({ status := 201, success := some true, message := some "Registration successful!",
           token := some (jwtSign { userId := some newId, username := some u } secret iat (7 * 86400)),
           user := some ⟨some newId, some u⟩ }, s3)

/-- `POST /api/login` of `src/backend/server.js` lines 125-149. -/
def backendLogin (s : Store) (u? p? : Option String) (secret : String) (iat : Nat) : Resp :=
  if isFalsy u? || isFalsy p? then
    { status := 400, success := some false, error := some "Username and password required" }
  else
    match findByUsername s (jsTrim (u?.getD "")) with
    | none => { status := 401, success := some false, error := some "Invalid credentials" }
    | some user =>
      if bcryptCompare (p?.getD "") user.password then
        { status := 200, success := some true, message := some "Login successful",
          token := some (jwtSign { userId := some user.id, username := some user.username } secret iat (7 * 86400)),
          user := some ⟨some user.id, some user.username⟩ }
      else
        { status := 401, success := some false, error := some "Invalid credentials" }

/-- `GET /api/check-auth` of `src/backend/server.js` lines 152-164: the
same shape as the main variant but with bare `isLoggedIn: false` bodies. -/
def backendCheckAuth (hdr : Option (List JwtStr)) (secret : String) (now : Nat) : Resp :=
  match bearerWord hdr with
  | none => { isLoggedIn := some false }
  | some t =>
    match jwtVerify t secret now with
    | .ok c => { isLoggedIn := some true, user := some ⟨c.userId, c.username⟩ }
    | .error _ => { isLoggedIn := some false }

/-- `POST /api/register` of `src/unnamed/part_000` lines 44-79: only a
falsiness check of the two fields, the pre-check SELECT against `s1`
(untrimmed username), bcrypt at cost 10, the INSERT against `s2` whose
error is answered with a generic 500, and a token carrying only the
`username` claim with `expiresIn: 1d`, sent by a bare `res.json`
(status 200). -/
def part0Register (s1 s2 : Store) (u? p? : Option String) (salt iat : Nat)
    (secret : String) : Resp × Store :=
  if isFalsy u? || isFalsy p? then
    ({ status := 400, error := some "Missing fields" }, s2)
  else
    let u := u?.getD ""
    if (findByUsername s1 u).isSome then
      ({ status := 400, error := some "User already exists" }, s2)
    else
      match insertUser s2 u (bcryptHash (p?.getD "") salt 10) with
      | .error .dupEntry => ({ status := 500, error := some "Database error" }, s2)
      | .ok (_, s3) =>
        ({ status := 200, token := some (jwtSign { username := some u } secret iat 86400),
           user := some ⟨none, some u⟩ }, s3)

/-- `POST /api/login` of `src/unnamed/part_000` lines 82-110: no
missing-field check.  An absent username is escaped by the driver's text
protocol to SQL NULL, the SELECT matches no row, and the handler answers
401; an absent password with an existing user reaches
`bcrypt.compare(undefined)`, whose rejection in the async callback sends
no response — modelled as `none` (no JSON response).  Otherwise:
untrimmed lookup, compare, and a 1-day token carrying only the
`username` claim. -/
def part0Login (s : Store) (u? p? : Option String) (secret : String) (iat : Nat) :
    Option Resp :=
  match u? with
  | none => some { status := 401, error := some "Invalid credentials" }
  | some u =>
    match findByUsername s u with
    | none => some { status := 401, error := some "Invalid credentials" }
    | some user =>
      match p? with
      | none => none
      | some p =>
        if bcryptCompare p user.password then
          some { status := 200,
                 token := some (jwtSign { username := some user.username } secret iat 86400),
                 user := some ⟨none, some user.username⟩ }
        else some { status := 401, error := some "Invalid credentials" }

/-- `GET /api/check-auth` of `src/unnamed/part_000` lines 113-129: only
header presence is tested (no `Bearer ` check); `split(' ')[1]` may be
absent, in which case `jwt.verify(undefined)` throws and the catch answers
`isLoggedIn: false`; every answer is a bare `res.json` (status 200). -/
def part0CheckAuth (hdr : Option (List JwtStr)) (secret : String) (now : Nat) : Resp :=
  match hdr with
  | none => { isLoggedIn := some false }
  | some ws =>
    match ws[1]? with
    | none => { isLoggedIn := some false }
    | some t =>
      match jwtVerify t secret now with
      | .ok c => { isLoggedIn := some true, user := some ⟨none, c.username⟩ }
      | .error _ => { isLoggedIn := some false }

/-- `POST /api/register` of `src/unnamed/part_001` lines 40-81: only a
falsiness check, untrimmed pre-check against `s1`, bcrypt cost 10, INSERT
against `s2` (an `ER_DUP_ENTRY` reaches the catch-all and becomes a
generic 500), and a 7-day token with `userId` and `username`. -/
def part1Register (s1 s2 : Store) (u? p? : Option String) (salt iat : Nat)
    (secret : String) : Resp × Store :=
  if isFalsy u? || isFalsy p? then
    ({ status := 400, error := some "Username and password required" }, s2)
  else
    let u := u?.getD ""
    if (findByUsername s1 u).isSome then
      ({ status := 400, error := some "Username already exists" }, s2)
    else
      match insertUser s2 u (bcryptHash (p?.getD "") salt 10) with
      | .error .dupEntry => ({ status := 500, error := some "Registration failed" }, s2)
      | .ok (newId, s3) =>
        ({ status := 201,
           token := some (jwtSign { userId := some newId, username := some u } secret iat (7 * 86400)),
           user := some ⟨some newId, some u⟩ }, s3)

/-- `POST /api/login` of `src/unnamed/part_001` lines 84-119: no
missing-field check.  An absent username is escaped by the driver's text
protocol to SQL NULL, the SELECT matches no row, and the handler answers
its invalid-credentials outcome (status 400 in this variant); an absent
password with an existing user makes `bcrypt.compare(undefined)` reject
and the catch answers 500 `Server error`.  The token is signed with keys
`id` and `username` and `expiresIn: 1d`. -/
def part1Login (s : Store) (u? p? : Option String) (secret : String) (iat : Nat) : Resp :=
  match u? with
  | none => { status := 400, error := some "Invalid credentials" }
  | some u =>
    match findByUsername s u with
    | none => { status := 400, error := some "Invalid credentials" }
    | some user =>
      match p? with
      | none => { status := 500, error := some "Server error" }
      | some p =>
        if bcryptCompare p user.password then
          { status := 200,
            token := some (jwtSign { id := some user.id, username := some user.username } secret iat 86400),
            user := some ⟨some user.id, some user.username⟩ }
        else { status := 400, error := some "Invalid credentials" }

/-- Request-level semantics of `GET /api/check-auth` in `src/server.js`:
the handler body issues no query against the pool, so the table state is
returned unchanged alongside the response. -/
def mainCheckAuthSt (s : Store) (hdr : Option (List JwtStr)) (secret : String)
    (now : Nat) : Resp × Store :=
  (mainCheckAuth hdr secret now, s)

/-- Request-level semantics of `GET /api/check-auth` in
`src/backend/server.js`: no query is issued. -/
def backendCheckAuthSt (s : Store) (hdr : Option (List JwtStr)) (secret : String)
    (now : Nat) : Resp × Store :=
  (backendCheckAuth hdr secret now, s)

/-- Request-level semantics of `GET /api/check-auth` in
`src/unnamed/part_000`: no query is issued. -/
def part0CheckAuthSt (s : Store) (hdr : Option (List JwtStr)) (secret : String)
    (now : Nat) : Resp × Store :=
  (part0CheckAuth hdr secret now, s)

/-- The specification's username rule, stated from the spec's words
(length 3 to 50, characters letters, digits and underscore), for
comparison with the source's `validateUsername`. -/
def specUsernameOk (u? : Option String) : Prop :=
  ∃ u, u? = some u ∧ 3 ≤ u.length ∧ u.length ≤ 50 ∧ u.data.all goodChar = true

/-- The password rule as enforced by the source (`length ≥ 6` from the
spec plus the source's upper bound of 100), for comparison with
`validatePassword`. -/
def specPasswordOk (p? : Option String) : Prop :=
  ∃ p, p? = some p ∧ 6 ≤ p.length ∧ p.length ≤ 100

example : validateUsername (some "alice") = none := by decide
example : validateUsername (some "ab") = some "Username must be at least 3 characters long" := by decide
example : validatePassword (some "secret1") = none := by decide
example : jsTrim "  alice " = "alice" := by decide

/-! ## Helper lemmas -/

/-- A character of the validation class is not JavaScript whitespace. -/
theorem goodChar_not_ws (c : Char) (h : goodChar c = true) : jsWhitespace c = false := by
  simp only [goodChar, Bool.or_eq_true, decide_eq_true_eq] at h
  simp only [jsWhitespace, Bool.or_eq_false_iff, decide_eq_false_iff_not]
  omega

/-- `dropWhile` is the identity on a list none of whose elements satisfy
the predicate. -/
theorem dropWhile_eq_self_of_not (p : Char → Bool) :
    ∀ l : List Char, (∀ c ∈ l, p c = false) → l.dropWhile p = l := by
  intro l h
  cases l with
  | nil => rfl
  | cons a t =>
    have ha : p a = false := h a (List.mem_cons_self a t)
    simp [List.dropWhile_cons, ha]

/-- JavaScript `trim` is the identity on a string of validation-class
characters. -/
theorem jsTrim_of_all_good (u : String) (h : u.data.all goodChar = true) : jsTrim u = u := by
  have hws : ∀ c ∈ u.data, jsWhitespace c = false := by
    intro c hc
    exact goodChar_not_ws c (by simpa using (List.all_eq_true.mp h c hc))
  have h1 : u.data.dropWhile jsWhitespace = u.data :=
    dropWhile_eq_self_of_not jsWhitespace u.data hws
  have h2 : u.data.reverse.dropWhile jsWhitespace = u.data.reverse :=
    dropWhile_eq_self_of_not jsWhitespace u.data.reverse
      (by intro c hc; exact hws c (List.mem_reverse.mp hc))
  show String.mk (jsTrimCore u.data) = u
  rw [jsTrimCore, h1, h2, List.reverse_reverse]

/-- The duplicate pre-check (`existingUsers.length > 0`) and the point
lookup agree: no row is found exactly when no row satisfies the match. -/
theorem findByUsername_none_iff (s : Store) (u : String) :
    findByUsername s u = none ↔ s.users.any (fun r => r.username == u) = false := by
  rw [findByUsername, List.find?_eq_none]
  simp

/-- A `src/server.js` username that passes validation is a nonempty string
of validation-class characters, no longer than 50, and at least 3 long;
conversely such a string passes. -/
theorem validateUsername_none_iff (u : String) :
    validateUsername (some u) = none ↔
      3 ≤ u.length ∧ u.length ≤ 50 ∧ u.data.all goodChar = true := by
  constructor
  · intro h
    rw [validateUsername] at h
    split at h
    · exact absurd h (by simp)
    · split at h
      · exact absurd h (by simp)
      · split at h
        · rename_i h1 h2 h3
          have hg : u.data.all goodChar = true := h3.1
          have ht : jsTrim u = u := jsTrim_of_all_good u hg
          rw [ht] at h1
          exact ⟨by omega, by omega, hg⟩
        · exact absurd h (by simp)
  · rintro ⟨h3, h50, hg⟩
    have ht : jsTrim u = u := jsTrim_of_all_good u hg
    have hne : u ≠ "" := by
      intro he
      rw [he] at h3
      simp [String.length] at h3
    rw [validateUsername, ht]
    rw [if_neg (by omega), if_neg (by omega), if_pos ⟨hg, hne⟩]

/-- A `src/server.js` password that passes validation is 6 to 100
characters long, and conversely. -/
theorem validatePassword_none_iff (p : String) :
    validatePassword (some p) = none ↔ 6 ≤ p.length ∧ p.length ≤ 100 := by
  rw [validatePassword]
  constructor
  · intro h
    split at h
    · exact absurd h (by simp)
    · split at h
      · exact absurd h (by simp)
      · omega
  · intro ⟨h6, h100⟩
    rw [if_neg (by omega), if_neg (by omega)]

/-! ## Claim C1 -/

/-- Claim C1: for every (username, password) pair that passes the
`src/server.js` validation and whose username is not yet in the store,
Register succeeds (201), and a subsequent Login against the resulting
store with the same username and password succeeds (200) and returns a
token whose embedded username claim equals that username. -/
theorem register_then_login_same_user (s : Store) (u p : String)
    (salt iat iat2 : Nat) (secret : String)
    (hu : validateUsername (some u) = none)
    (hp : validatePassword (some p) = none)
    (hfree : findByUsername s u = none) :
    (mainRegister s s (some u) (some p) salt iat secret).1.status = 201 ∧
    (mainLogin (mainRegister s s (some u) (some p) salt iat secret).2
        (some u) (some p) secret iat2).status = 200 ∧
    ((mainLogin (mainRegister s s (some u) (some p) salt iat secret).2
        (some u) (some p) secret iat2).token.bind tokenUsername) = some u := by
  obtain ⟨h3, _, hg⟩ := (validateUsername_none_iff u).mp hu
  have ht : jsTrim u = u := jsTrim_of_all_good u hg
  have hne : u ≠ "" := by
    intro he
    rw [he] at h3
    simp [String.length] at h3
  have hany : s.users.any (fun r => r.username == u) = false :=
    (findByUsername_none_iff s u).mp hfree
  have hfind : s.users.find? (fun r => r.username == u) = none := hfree
  have hreg : mainRegister s s (some u) (some p) salt iat secret =
      ({ status := 201, success := some true, message := some "Registration successful!",
         token := some (jwtSign { userId := some s.nextId, username := some u } secret iat (7 * 86400)),
         user := some ⟨some s.nextId, some u⟩ },
       ⟨s.users ++ [⟨s.nextId, u, bcryptHash p salt 12⟩], s.nextId + 1⟩) := by
    simp [mainRegister, hu, hp, ht, hfree, insertUser, hany]
  rw [hreg]
  have hlogin : mainLogin ⟨s.users ++ [⟨s.nextId, u, bcryptHash p salt 12⟩], s.nextId + 1⟩
      (some u) (some p) secret iat2 =
      { status := 200, success := some true, message := some "Login successful",
        token := some (jwtSign { userId := some s.nextId, username := some u } secret iat2 (7 * 86400)),
        user := some ⟨some s.nextId, some u⟩ } := by
    have hpne : p ≠ "" := by
      have h6 := ((validatePassword_none_iff p).mp hp).1
      intro he
      rw [he] at h6
      simp [String.length] at h6
    simp [mainLogin, isFalsy, hne, hpne, ht, findByUsername, hfind, bcryptCompare, bcryptHash]
  rw [hlogin]
  refine ⟨rfl, rfl, ?_⟩
  simp [jwtSign, tokenUsername]

/-- Concrete instance of `register_then_login_same_user` at the pair
("alice", "secret1") on the empty store. -/
theorem register_then_login_same_user_inst :
    (mainRegister ⟨[], 1⟩ ⟨[], 1⟩ (some "alice") (some "secret1") 3 0 "k").1.status = 201 ∧
    (mainLogin (mainRegister ⟨[], 1⟩ ⟨[], 1⟩ (some "alice") (some "secret1") 3 0 "k").2
        (some "alice") (some "secret1") "k" 9).status = 200 ∧
    ((mainLogin (mainRegister ⟨[], 1⟩ ⟨[], 1⟩ (some "alice") (some "secret1") 3 0 "k").2
        (some "alice") (some "secret1") "k" 9).token.bind tokenUsername) = some "alice" :=
  register_then_login_same_user ⟨[], 1⟩ "alice" "secret1" 3 0 9 "k"
    (by decide) (by decide) (by decide)

/-! ## Claim C2 -/

/-- Claim C2, counterexample: in `src/backend/server.js` the catch block
does not inspect the error code, so when the pre-check misses (SELECT
state without the row) and the INSERT hits the uniqueness constraint
(INSERT state with the row), the outcome is a generic 500, not the 400
DuplicateUsername outcome the claim asserts. -/
theorem race_dup_entry_claim_false :
    (backendRegister ⟨[], 1⟩ ⟨[⟨1, "alice", ⟨"pw0", 0, 12⟩⟩], 2⟩
        (some "alice") (some "secret1") 5 0 "k").1.status = 500 ∧
    (backendRegister ⟨[], 1⟩ ⟨[⟨1, "alice", ⟨"pw0", 0, 12⟩⟩], 2⟩
        (some "alice") (some "secret1") 5 0 "k").1.error = some "Registration failed" ∧
    (backendRegister ⟨[], 1⟩ ⟨[⟨1, "alice", ⟨"pw0", 0, 12⟩⟩], 2⟩
        (some "alice") (some "secret1") 5 0 "k").1.status ≠ 400 := by
  refine ⟨by decide, by decide, by decide⟩

/-- Claim C2, amended: a second Register for a username already present at
the pre-check fails with 400 in every variant; when the pre-check misses
and the INSERT itself reports the uniqueness violation, `src/server.js`
translates the store error into the same 400 DuplicateUsername outcome,
but `src/backend/server.js` answers a generic 500 in that race case. -/
theorem duplicate_username_outcomes (s1 s2 : Store) (u p : String)
    (salt iat : Nat) (secret : String) :
    (validateUsername (some u) = none → validatePassword (some p) = none →
      (∀ r, findByUsername s1 u = some r →
        (mainRegister s1 s2 (some u) (some p) salt iat secret).1.status = 400 ∧
        (mainRegister s1 s2 (some u) (some p) salt iat secret).1.error =
          some "Username is already taken. Please choose another.") ∧
      (findByUsername s1 u = none → ∀ r, findByUsername s2 u = some r →
        (mainRegister s1 s2 (some u) (some p) salt iat secret).1.status = 400 ∧
        (mainRegister s1 s2 (some u) (some p) salt iat secret).1.error =
          some "Username is already taken.")) ∧
    (validateUsernameB (some u) = none → validatePasswordB (some p) = none →
      (∀ r, findByUsername s1 u = some r →
        (backendRegister s1 s2 (some u) (some p) salt iat secret).1.status = 400 ∧
        (backendRegister s1 s2 (some u) (some p) salt iat secret).1.error =
          some "Username already taken") ∧
      (findByUsername s1 u = none → ∀ r, findByUsername s2 u = some r →
        (backendRegister s1 s2 (some u) (some p) salt iat secret).1.status = 500 ∧
        (backendRegister s1 s2 (some u) (some p) salt iat secret).1.error =
          some "Registration failed")) ∧
    (u ≠ "" → p ≠ "" → ∀ r, findByUsername s1 u = some r →
      (part0Register s1 s2 (some u) (some p) salt iat secret).1.status = 400 ∧
      (part0Register s1 s2 (some u) (some p) salt iat secret).1.error =
        some "User already exists") ∧
    (u ≠ "" → p ≠ "" → ∀ r, findByUsername s1 u = some r →
      (part1Register s1 s2 (some u) (some p) salt iat secret).1.status = 400 ∧
      (part1Register s1 s2 (some u) (some p) salt iat secret).1.error =
        some "Username already exists") := by
  refine ⟨?_, ?_, ?_, ?_⟩
  · intro hu hp
    obtain ⟨_, _, hg⟩ := (validateUsername_none_iff u).mp hu
    have ht : jsTrim u = u := jsTrim_of_all_good u hg
    constructor
    · intro r hr
      constructor <;> simp [mainRegister, hu, hp, ht, hr]
    · intro hfree r hr
      have hany2 : s2.users.any (fun r => r.username == u) = true := by
        rcases hb : s2.users.any (fun r => r.username == u) with _ | _
        · rw [(findByUsername_none_iff s2 u).mpr hb] at hr
          cases hr
        · rfl
      constructor <;> simp [mainRegister, hu, hp, ht, hfree, insertUser, hany2]
  · intro hu hp
    have hg : u.data.all goodChar = true := by
      rw [validateUsernameB] at hu
      split at hu
      · exact absurd hu (by simp)
      · split at hu
        · rename_i hgn
          exact hgn.1
        · exact absurd hu (by simp)
    have ht : jsTrim u = u := jsTrim_of_all_good u hg
    constructor
    · intro r hr
      constructor <;> simp [backendRegister, hu, hp, ht, hr]
    · intro hfree r hr
      have hany2 : s2.users.any (fun r => r.username == u) = true := by
        rcases hb : s2.users.any (fun r => r.username == u) with _ | _
        · rw [(findByUsername_none_iff s2 u).mpr hb] at hr
          cases hr
        · rfl
      constructor <;> simp [backendRegister, hu, hp, ht, hfree, insertUser, hany2]
  · intro hun hpn r hr
    constructor <;> simp [part0Register, isFalsy, hun, hpn, hr]
  · intro hun hpn r hr
    constructor <;> simp [part1Register, isFalsy, hun, hpn, hr]

/-- Concrete instance of `duplicate_username_outcomes`: with "alice"
already stored, the main variant's pre-check answers 400, and the backend
variant's race case (pre-check against the empty state, INSERT against
the state holding "alice") answers 500. -/
theorem duplicate_username_outcomes_inst :
    (mainRegister ⟨[⟨1, "alice", ⟨"pw0", 0, 12⟩⟩], 2⟩ ⟨[⟨1, "alice", ⟨"pw0", 0, 12⟩⟩], 2⟩
        (some "alice") (some "other12") 5 0 "k").1.status = 400 ∧
    (backendRegister ⟨[], 1⟩ ⟨[⟨1, "alice", ⟨"pw0", 0, 12⟩⟩], 2⟩
        (some "alice") (some "other12") 5 0 "k").1.status = 500 :=
  ⟨(((duplicate_username_outcomes ⟨[⟨1, "alice", ⟨"pw0", 0, 12⟩⟩], 2⟩
        ⟨[⟨1, "alice", ⟨"pw0", 0, 12⟩⟩], 2⟩ "alice" "other12" 5 0 "k").1 (by decide) (by decide)).1
      ⟨1, "alice", ⟨"pw0", 0, 12⟩⟩ (by decide)).1,
   (((duplicate_username_outcomes ⟨[], 1⟩ ⟨[⟨1, "alice", ⟨"pw0", 0, 12⟩⟩], 2⟩
        "alice" "other12" 5 0 "k").2.1 (by decide) (by decide)).2 (by decide)
      ⟨1, "alice", ⟨"pw0", 0, 12⟩⟩ (by decide)).1⟩

/-! ## Claim C3 -/

/-- Claim C3, counterexample: in `src/unnamed/part_001` a Login with a
nonexistent username answers status 400, not the 401 the claim asserts
(the wrong-password case answers the identical 400, so the two cases are
still indistinguishable there). -/
theorem invalid_credentials_status_claim_false :
    (part1Login ⟨[⟨1, "alice", ⟨"pw0", 0, 10⟩⟩], 2⟩ (some "bob") (some "x") "k" 0).status = 400 ∧
    (part1Login ⟨[⟨1, "alice", ⟨"pw0", 0, 10⟩⟩], 2⟩ (some "bob") (some "x") "k" 0).error =
      some "Invalid credentials" ∧
    (part1Login ⟨[⟨1, "alice", ⟨"pw0", 0, 10⟩⟩], 2⟩ (some "bob") (some "x") "k" 0).status ≠ 401 := by
  refine ⟨by decide, by decide, by decide⟩

/-- Claim C3, amended: in every variant, Login with a nonexistent username
and Login with an existing username but wrong password produce the
identical response (same status and same message), so the two cases are
indistinguishable to the caller; that shared status is 401 in
`src/server.js`, `src/backend/server.js` and `src/unnamed/part_000`, but
400 in `src/unnamed/part_001`. -/
theorem login_failure_indistinguishable (s : Store) (u1 p1 u2 p2 : String)
    (r : UserRec) (secret : String) (iat1 iat2 : Nat)
    (hne1 : u1 ≠ "") (hne2 : p1 ≠ "") (hne3 : u2 ≠ "") (hne4 : p2 ≠ "")
    (hmiss : findByUsername s (jsTrim u1) = none)
    (hmissRaw : findByUsername s u1 = none)
    (hhit : findByUsername s (jsTrim u2) = some r)
    (hhitRaw : findByUsername s u2 = some r)
    (hbad : bcryptCompare p2 r.password = false) :
    (mainLogin s (some u1) (some p1) secret iat1 =
       mainLogin s (some u2) (some p2) secret iat2 ∧
     (mainLogin s (some u2) (some p2) secret iat2).status = 401 ∧
     (mainLogin s (some u2) (some p2) secret iat2).error =
       some "Invalid username or password") ∧
    (backendLogin s (some u1) (some p1) secret iat1 =
       backendLogin s (some u2) (some p2) secret iat2 ∧
     (backendLogin s (some u2) (some p2) secret iat2).status = 401 ∧
     (backendLogin s (some u2) (some p2) secret iat2).error =
       some "Invalid credentials") ∧
    (part0Login s (some u1) (some p1) secret iat1 =
       part0Login s (some u2) (some p2) secret iat2 ∧
     part0Login s (some u2) (some p2) secret iat2 =
       some { status := 401, error := some "Invalid credentials" }) ∧
    (part1Login s (some u1) (some p1) secret iat1 =
       part1Login s (some u2) (some p2) secret iat2 ∧
     (part1Login s (some u2) (some p2) secret iat2).status = 400 ∧
     (part1Login s (some u2) (some p2) secret iat2).error =
       some "Invalid credentials") := by
  refine ⟨⟨?_, ?_, ?_⟩, ⟨?_, ?_, ?_⟩, ⟨?_, ?_⟩, ⟨?_, ?_, ?_⟩⟩ <;>
    simp [mainLogin, backendLogin, part0Login, part1Login, isFalsy,
      hne1, hne2, hne3, hne4, hmiss, hmissRaw, hhit, hhitRaw, hbad]

/-- Concrete instance of `login_failure_indistinguishable` on a store
holding only "alice": unknown user "bob" and wrong password for "alice"
give equal responses, and part_001's shared status is 400. -/
theorem login_failure_indistinguishable_inst :
    mainLogin ⟨[⟨1, "alice", ⟨"pw0", 0, 12⟩⟩], 2⟩ (some "bob") (some "x") "k" 0 =
      mainLogin ⟨[⟨1, "alice", ⟨"pw0", 0, 12⟩⟩], 2⟩ (some "alice") (some "wrongpass") "k" 7 ∧
    (part1Login ⟨[⟨1, "alice", ⟨"pw0", 0, 12⟩⟩], 2⟩ (some "alice") (some "wrongpass") "k" 7).status = 400 :=
  ⟨(login_failure_indistinguishable ⟨[⟨1, "alice", ⟨"pw0", 0, 12⟩⟩], 2⟩ "bob" "x" "alice" "wrongpass"
      ⟨1, "alice", ⟨"pw0", 0, 12⟩⟩ "k" 0 7 (by decide) (by decide) (by decide) (by decide)
      (by decide) (by decide) (by decide) (by decide) (by decide)).1.1,
   (login_failure_indistinguishable ⟨[⟨1, "alice", ⟨"pw0", 0, 12⟩⟩], 2⟩ "bob" "x" "alice" "wrongpass"
      ⟨1, "alice", ⟨"pw0", 0, 12⟩⟩ "k" 0 7 (by decide) (by decide) (by decide) (by decide)
      (by decide) (by decide) (by decide) (by decide) (by decide)).2.2.2.2.1⟩

/-! ## Claim C4 -/

/-- Claim C4: every CheckAuth response of the three variants that serve it
has status 200 — a verified token answers `isLoggedIn: true` with the
embedded user, and every other case (no header, non-Bearer header,
malformed or badly signed token, expired token) answers
`isLoggedIn: false`; no 401 or error status is ever produced. -/
theorem check_auth_always_ok (hdr : Option (List JwtStr)) (secret : String) (now : Nat) :
    (mainCheckAuth hdr secret now).status = 200 ∧
    (backendCheckAuth hdr secret now).status = 200 ∧
    (part0CheckAuth hdr secret now).status = 200 ∧
    (∀ t c, bearerWord hdr = some t → jwtVerify t secret now = .ok c →
      (mainCheckAuth hdr secret now).isLoggedIn = some true ∧
      (mainCheckAuth hdr secret now).user = some ⟨c.userId, c.username⟩ ∧
      (backendCheckAuth hdr secret now).isLoggedIn = some true ∧
      (backendCheckAuth hdr secret now).user = some ⟨c.userId, c.username⟩) ∧
    (∀ t e, bearerWord hdr = some t → jwtVerify t secret now = .error e →
      (mainCheckAuth hdr secret now).isLoggedIn = some false ∧
      (backendCheckAuth hdr secret now).isLoggedIn = some false) ∧
    (bearerWord hdr = none →
      (mainCheckAuth hdr secret now).isLoggedIn = some false ∧
      (backendCheckAuth hdr secret now).isLoggedIn = some false) ∧
    (∀ ws t c, hdr = some ws → ws[1]? = some t → jwtVerify t secret now = .ok c →
      (part0CheckAuth hdr secret now).isLoggedIn = some true ∧
      (part0CheckAuth hdr secret now).user = some ⟨none, c.username⟩) ∧
    (∀ ws t e, hdr = some ws → ws[1]? = some t → jwtVerify t secret now = .error e →
      (part0CheckAuth hdr secret now).isLoggedIn = some false) ∧
    (∀ ws, hdr = some ws → ws[1]? = none →
      (part0CheckAuth hdr secret now).isLoggedIn = some false) ∧
    (hdr = none → (part0CheckAuth hdr secret now).isLoggedIn = some false) := by
  refine ⟨?_, ?_, ?_, ?_, ?_, ?_, ?_, ?_, ?_, ?_⟩
  · rcases hb : bearerWord hdr with _ | t
    · simp [mainCheckAuth, hb]
    · cases hv : jwtVerify t secret now <;> simp [mainCheckAuth, hb, hv]
  · rcases hb : bearerWord hdr with _ | t
    · simp [backendCheckAuth, hb]
    · cases hv : jwtVerify t secret now <;> simp [backendCheckAuth, hb, hv]
  · rcases hdr with _ | ws
    · simp [part0CheckAuth]
    · rcases hw : ws[1]? with _ | t
      · simp [part0CheckAuth, hw]
      · cases hv : jwtVerify t secret now <;> simp [part0CheckAuth, hw, hv]
  · intro t c hb hv
    refine ⟨?_, ?_, ?_, ?_⟩ <;> simp [mainCheckAuth, backendCheckAuth, hb, hv]
  · intro t e hb hv
    refine ⟨?_, ?_⟩ <;> simp [mainCheckAuth, backendCheckAuth, hb, hv]
  · intro hb
    refine ⟨?_, ?_⟩ <;> simp [mainCheckAuth, backendCheckAuth, hb]
  · intro ws t c hh hw hv
    subst hh
    refine ⟨?_, ?_⟩ <;> simp [part0CheckAuth, hw, hv]
  · intro ws t e hh hw hv
    subst hh
    simp [part0CheckAuth, hw, hv]
  · intro ws hh hw
    subst hh
    simp [part0CheckAuth, hw]
  · intro hh
    subst hh
    simp [part0CheckAuth]

/-- Concrete instance of `check_auth_always_ok`: a valid Bearer token and
a missing header both answer 200 in the main variant. -/
theorem check_auth_always_ok_inst :
    (mainCheckAuth (some [.raw "Bearer", .signed ⟨some 1, none, some "alice"⟩ 0 604800 "k"])
        "k" 5).status = 200 ∧
    (mainCheckAuth none "k" 5).status = 200 :=
  ⟨(check_auth_always_ok (some [.raw "Bearer", .signed ⟨some 1, none, some "alice"⟩ 0 604800 "k"])
      "k" 5).1,
   (check_auth_always_ok none "k" 5).1⟩

/-! ## Claim C5 -/

/-- Claim C5, counterexample: `src/unnamed/part_001` Register accepts the
2-character username "ab" with the 1-character password "x" — it answers
201, not the claimed 400 InvalidInput, and it inserts the row (the store
is changed), so validation does not happen before store access there. -/
theorem register_validation_claim_false :
    (part1Register ⟨[], 1⟩ ⟨[], 1⟩ (some "ab") (some "x") 0 0 "k").1.status = 201 ∧
    (part1Register ⟨[], 1⟩ ⟨[], 1⟩ (some "ab") (some "x") 0 0 "k").1.status ≠ 400 ∧
    (part1Register ⟨[], 1⟩ ⟨[], 1⟩ (some "ab") (some "x") 0 0 "k").2 ≠ ⟨[], 1⟩ := by
  refine ⟨by decide, by decide, by decide⟩

/-- Claim C5, amended: in `src/server.js`, Register validates the username
to be a nonempty 3-to-50-character string of letters, digits and
underscores and the password to be 6 to 100 characters; any violation
fails with 400 reporting the first violated rule, and the store is left
untouched (no insert, hence also no hashing result ever reaches it).
`src/unnamed/part_000` and `src/unnamed/part_001` only check field
presence, and `src/backend/server.js` omits the 50-character upper
bound. -/
theorem main_register_validation (s1 s2 : Store) (u? p? : Option String)
    (salt iat : Nat) (secret : String) :
    (validateUsername u? = none ↔ specUsernameOk u?) ∧
    (validatePassword p? = none ↔ specPasswordOk p?) ∧
    (∀ e, validateUsername u? = some e →
      mainRegister s1 s2 u? p? salt iat secret =
        ({ status := 400, success := some false, error := some e }, s2)) ∧
    (validateUsername u? = none → ∀ e, validatePassword p? = some e →
      mainRegister s1 s2 u? p? salt iat secret =
        ({ status := 400, success := some false, error := some e }, s2)) := by
  refine ⟨?_, ?_, ?_, ?_⟩
  · cases u? with
    | none => simp [validateUsername, specUsernameOk]
    | some u =>
      rw [validateUsername_none_iff]
      simp [specUsernameOk]
  · cases p? with
    | none => simp [validatePassword, specPasswordOk]
    | some p =>
      rw [validatePassword_none_iff]
      simp [specPasswordOk]
  · intro e he
    simp [mainRegister, he]
  · intro hu e he
    simp [mainRegister, hu, he]

/-- Concrete instance of `main_register_validation`: the main variant
rejects the username "ab" with 400, the first-rule message, and an
unchanged store. -/
theorem main_register_validation_inst :
    mainRegister ⟨[], 1⟩ ⟨[], 1⟩ (some "ab") (some "x") 0 0 "k" =
      ({ status := 400, success := some false,
         error := some "Username must be at least 3 characters long" }, ⟨[], 1⟩) :=
  (main_register_validation ⟨[], 1⟩ ⟨[], 1⟩ (some "ab") (some "x") 0 0 "k").2.2.1
    "Username must be at least 3 characters long" (by decide)

/-! ## Claim C6 -/

/-- Claim C6, counterexample: the token issued by `src/unnamed/part_000`
Register has a validity window of 1 day (86400 seconds), not the claimed
7 days. -/
theorem token_window_claim_false :
    ((part0Register ⟨[], 1⟩ ⟨[], 1⟩ (some "alice") (some "secret1") 0 100 "k").1.token.bind
      tokenWindow) = some 86400 ∧ (86400 : Nat) ≠ 7 * 86400 := by
  refine ⟨by decide, by decide⟩

/-- Claim C6, amended: every token issued by Register or Login of
`src/server.js` and `src/backend/server.js`, and by part_001's Register,
has a fixed 7-day validity window, while part_000's Register and Login and
part_001's Login issue 1-day tokens; once a token's expiry has passed,
verification rejects it whatever its signing secret, so CheckAuth answers
not authenticated. -/
theorem token_validity_windows (s1 s2 s : Store) (u? p? : Option String)
    (salt iat : Nat) (secret : String) :
    (∀ t, (mainRegister s1 s2 u? p? salt iat secret).1.token = some t →
      tokenWindow t = some (7 * 86400)) ∧
    (∀ t, (mainLogin s u? p? secret iat).token = some t →
      tokenWindow t = some (7 * 86400)) ∧
    (∀ t, (backendRegister s1 s2 u? p? salt iat secret).1.token = some t →
      tokenWindow t = some (7 * 86400)) ∧
    (∀ t, (backendLogin s u? p? secret iat).token = some t →
      tokenWindow t = some (7 * 86400)) ∧
    (∀ t, (part1Register s1 s2 u? p? salt iat secret).1.token = some t →
      tokenWindow t = some (7 * 86400)) ∧
    (∀ t, (part0Register s1 s2 u? p? salt iat secret).1.token = some t →
      tokenWindow t = some 86400) ∧
    (∀ r t, part0Login s u? p? secret iat = some r → r.token = some t →
      tokenWindow t = some 86400) ∧
    (∀ t, (part1Login s u? p? secret iat).token = some t →
      tokenWindow t = some 86400) ∧
    (∀ c iat2 e sec now, e ≤ now →
      ∀ cl, jwtVerify (.signed c iat2 e sec) secret now ≠ .ok cl) ∧
    (∀ hdr c iat2 e sec now, e ≤ now →
      bearerWord hdr = some (.signed c iat2 e sec) →
      (mainCheckAuth hdr secret now).isLoggedIn = some false) := by
  refine ⟨?_, ?_, ?_, ?_, ?_, ?_, ?_, ?_, ?_, ?_⟩
  · intro t ht
    unfold mainRegister at ht
    try simp only [] at ht
    repeat' split at ht
    all_goals cases ht
    all_goals simp [jwtSign, tokenWindow]
  · intro t ht
    unfold mainLogin at ht
    try simp only [] at ht
    repeat' split at ht
    all_goals cases ht
    all_goals simp [jwtSign, tokenWindow]
  · intro t ht
    unfold backendRegister at ht
    try simp only [] at ht
    repeat' split at ht
    all_goals cases ht
    all_goals simp [jwtSign, tokenWindow]
  · intro t ht
    unfold backendLogin at ht
    try simp only [] at ht
    repeat' split at ht
    all_goals cases ht
    all_goals simp [jwtSign, tokenWindow]
  · intro t ht
    unfold part1Register at ht
    try simp only [] at ht
    repeat' split at ht
    all_goals cases ht
    all_goals simp [jwtSign, tokenWindow]
  · intro t ht
    unfold part0Register at ht
    try simp only [] at ht
    repeat' split at ht
    all_goals cases ht
    all_goals simp [jwtSign, tokenWindow]
  · intro r t hr ht
    unfold part0Login at hr
    try simp only [] at hr
    repeat' split at hr
    all_goals cases hr
    all_goals cases ht
    all_goals simp [jwtSign, tokenWindow]
  · intro t ht
    unfold part1Login at ht
    try simp only [] at ht
    repeat' split at ht
    all_goals cases ht
    all_goals simp [jwtSign, tokenWindow]
  · intro c iat2 e sec now hle cl h
    simp only [jwtVerify] at h
    rw [if_pos hle] at h
    split at h
    · cases h
    · cases h
  · intro hdr c iat2 e sec now hle hb
    cases hv : jwtVerify (.signed c iat2 e sec) secret now with
    | error e' => simp [mainCheckAuth, hb, hv]
    | ok cl =>
      exfalso
      simp only [jwtVerify] at hv
      rw [if_pos hle] at hv
      split at hv
      · cases hv
      · cases hv

/-- Concrete instance of `token_validity_windows`: the main variant's
Register token on the empty store has a 7-day window. -/
theorem token_validity_windows_inst :
    tokenWindow (.signed ⟨some 1, none, some "alice"⟩ 0 604800 "k") = some (7 * 86400) :=
  (token_validity_windows ⟨[], 1⟩ ⟨[], 1⟩ ⟨[], 1⟩ (some "alice") (some "secret1") 0 0 "k").1
    (.signed ⟨some 1, none, some "alice"⟩ 0 604800 "k") (by decide)

/-! ## Claim C7 -/

/-- A well-formed `Bearer` header carrying `t` extracts `t`. -/
theorem bearerWord_pair (t : JwtStr) : bearerWord (some [.raw "Bearer", t]) = some t := by
  simp [bearerWord]

/-- A freshly signed token verifies under its own secret before its
expiry. -/
theorem jwtVerify_sign_fresh (c : JwtClaims) (secret : String) (iat ttl now : Nat)
    (h : now < iat + ttl) :
    jwtVerify (jwtSign c secret iat ttl) secret now = .ok c := by
  simp only [jwtSign, jwtVerify]
  rw [if_neg (by simp), if_neg (by omega)]

/-- The main variant's CheckAuth on a fresh Bearer token answers
authenticated with the token's embedded claims. -/
theorem mainCheckAuth_sign (c : JwtClaims) (secret : String) (iat ttl now : Nat)
    (h : now < iat + ttl) :
    mainCheckAuth (some [.raw "Bearer", jwtSign c secret iat ttl]) secret now =
      { isLoggedIn := some true, user := some ⟨c.userId, c.username⟩ } := by
  simp only [mainCheckAuth, bearerWord_pair, jwtVerify_sign_fresh c secret iat ttl now h]

/-- Either the main Register response carries no token, or the INSERT
succeeded and the response is the 201 success record for the new id and
trimmed username. -/
theorem mainRegister_success_shape (s1 s2 : Store) (u? p? : Option String)
    (salt iat : Nat) (secret : String) :
    (mainRegister s1 s2 u? p? salt iat secret).1.token = none ∨
    ∃ newId s3,
      insertUser s2 (jsTrim (u?.getD "")) (bcryptHash (p?.getD "") salt 12) = .ok (newId, s3) ∧
      (mainRegister s1 s2 u? p? salt iat secret).1 =
        { status := 201, success := some true, message := some "Registration successful!",
          token := some (jwtSign { userId := some newId, username := some (jsTrim (u?.getD "")) }
            secret iat (7 * 86400)),
          user := some ⟨some newId, some (jsTrim (u?.getD ""))⟩ } := by
  unfold mainRegister
  try simp only []
  repeat' split
  all_goals first
    | exact Or.inl rfl
    | exact Or.inr ⟨_, _, by assumption, rfl⟩

/-- Either the main Login response carries no token, or the lookup found a
row and the response is the 200 success record for that row. -/
theorem mainLogin_success_shape (s : Store) (u? p? : Option String)
    (secret : String) (iat : Nat) :
    (mainLogin s u? p? secret iat).token = none ∨
    ∃ user : UserRec, findByUsername s (jsTrim (u?.getD "")) = some user ∧
      mainLogin s u? p? secret iat =
        { status := 200, success := some true, message := some "Login successful",
          token := some (jwtSign { userId := some user.id, username := some user.username }
            secret iat (7 * 86400)),
          user := some ⟨some user.id, some user.username⟩ } := by
  unfold mainLogin
  try simp only []
  repeat' split
  all_goals first
    | exact Or.inl rfl
    | exact Or.inr ⟨_, by assumption, rfl⟩

/-- Claim C7, counterexample: the token issued by `src/unnamed/part_000`
Register carries only the `username` claim — its `userId` claim is absent
(`undefined`), so not every issued token embeds both claims. -/
theorem token_claims_claim_false :
    (part0Register ⟨[], 1⟩ ⟨[], 1⟩ (some "alice") (some "secret1") 0 0 "k").1.token =
      some (.signed ⟨none, none, some "alice"⟩ 0 86400 "k") ∧
    ((part0Register ⟨[], 1⟩ ⟨[], 1⟩ (some "alice") (some "secret1") 0 0 "k").1.token.bind
      tokenUserId) = none := by
  refine ⟨by decide, by decide⟩

/-- Claim C7, amended: every token issued by `src/server.js` Register or
Login embeds both `userId` and `username`, equal to the id/username of the
response's user, and the main CheckAuth on such a token (before expiry)
answers authenticated with exactly that id and username; the token issued
by part_000's Register embeds only a `username` claim and no `userId`. -/
theorem token_claims_roundtrip (s1 s2 s : Store) (u? p? : Option String)
    (salt iat : Nat) (secret : String) :
    (∀ t, (mainRegister s1 s2 u? p? salt iat secret).1.token = some t →
      ∃ uid un, tokenUserId t = some uid ∧ tokenUsername t = some un ∧
        (mainRegister s1 s2 u? p? salt iat secret).1.user = some ⟨some uid, some un⟩ ∧
        ∀ now, now < iat + 7 * 86400 →
          mainCheckAuth (some [.raw "Bearer", t]) secret now =
            { isLoggedIn := some true, user := some ⟨some uid, some un⟩ }) ∧
    (∀ t, (mainLogin s u? p? secret iat).token = some t →
      ∃ uid un, tokenUserId t = some uid ∧ tokenUsername t = some un ∧
        (mainLogin s u? p? secret iat).user = some ⟨some uid, some un⟩ ∧
        ∀ now, now < iat + 7 * 86400 →
          mainCheckAuth (some [.raw "Bearer", t]) secret now =
            { isLoggedIn := some true, user := some ⟨some uid, some un⟩ }) ∧
    (∀ t, (part0Register s1 s2 u? p? salt iat secret).1.token = some t →
      tokenUserId t = none ∧ ∃ un, tokenUsername t = some un) := by
  refine ⟨?_, ?_, ?_⟩
  · intro t ht
    rcases mainRegister_success_shape s1 s2 u? p? salt iat secret with hn | ⟨newId, s3, _, hresp⟩
    · rw [hn] at ht
      cases ht
    · rw [hresp] at ht
      cases ht
      rw [hresp]
      exact ⟨newId, _, rfl, rfl, rfl, fun now hnow => mainCheckAuth_sign _ secret iat _ now hnow⟩
  · intro t ht
    rcases mainLogin_success_shape s u? p? secret iat with hn | ⟨user, _, hresp⟩
    · rw [hn] at ht
      cases ht
    · rw [hresp] at ht
      cases ht
      rw [hresp]
      exact ⟨user.id, _, rfl, rfl, rfl, fun now hnow => mainCheckAuth_sign _ secret iat _ now hnow⟩
  · intro t ht
    unfold part0Register at ht
    try simp only [] at ht
    repeat' split at ht
    all_goals cases ht
    exact ⟨rfl, _, rfl⟩

/-- Concrete instance of `token_claims_roundtrip`: the token put out by
the main Register on the empty store authenticates as user 1 "alice". -/
theorem token_claims_roundtrip_inst :
    mainCheckAuth (some [.raw "Bearer", .signed ⟨some 1, none, some "alice"⟩ 0 604800 "k"])
        "k" 99 =
      { isLoggedIn := some true, user := some ⟨some 1, some "alice"⟩ } := by
  obtain ⟨uid, un, h1, h2, _, h4⟩ :=
    (token_claims_roundtrip ⟨[], 1⟩ ⟨[], 1⟩ ⟨[], 1⟩ (some "alice") (some "secret1") 0 0 "k").1
      (.signed ⟨some 1, none, some "alice"⟩ 0 604800 "k") (by decide)
  simp only [tokenUserId, tokenUsername, Option.some.injEq] at h1 h2
  subst h1
  subst h2
  exact h4 99 (by decide)

/-! ## Claim C8 -/

/-- Claim C8, counterexample: `src/unnamed/part_001` Login with an absent
password and an existing username does not reject with 400 before the
lookup — the lookup happens and the absent value reaches the hasher, whose
rejection the catch turns into a 500. -/
theorem login_missing_fields_claim_false :
    (part1Login ⟨[⟨1, "alice", ⟨"pw0", 0, 10⟩⟩], 2⟩ (some "alice") none "k" 0).status = 500 ∧
    (part1Login ⟨[⟨1, "alice", ⟨"pw0", 0, 10⟩⟩], 2⟩ (some "alice") none "k" 0).error =
      some "Server error" ∧
    (part1Login ⟨[⟨1, "alice", ⟨"pw0", 0, 10⟩⟩], 2⟩ (some "alice") none "k" 0).status ≠ 400 := by
  refine ⟨by decide, by decide, by decide⟩

/-- Claim C8, amended: `src/server.js` and `src/backend/server.js` reject
a Login whose username or password field is absent (or empty) immediately
with 400, before any store access; `src/unnamed/part_000` and
`src/unnamed/part_001` have no such check — an absent username is escaped
to SQL NULL and falls through to the ordinary invalid-credentials outcome
(401 in part_000, 400 in part_001, not an InvalidInput rejection), and an
absent password with an existing user reaches the hasher, whose rejection
part_001's catch answers with 500 while part_000 sends no response at
all. -/
theorem login_missing_fields (s : Store) (u? p? : Option String)
    (secret : String) (iat : Nat) :
    (isFalsy u? = true ∨ isFalsy p? = true →
      mainLogin s u? p? secret iat =
        { status := 400, success := some false,
          error := some "Username and password are required" } ∧
      backendLogin s u? p? secret iat =
        { status := 400, success := some false,
          error := some "Username and password required" }) ∧
    (∀ u r, findByUsername s u = some r →
      part1Login s (some u) none secret iat =
        { status := 500, error := some "Server error" }) ∧
    (∀ u r, findByUsername s u = some r →
      part0Login s (some u) none secret iat = none) ∧
    part1Login s none p? secret iat =
      { status := 400, error := some "Invalid credentials" } ∧
    part0Login s none p? secret iat =
      some { status := 401, error := some "Invalid credentials" } := by
  refine ⟨?_, ?_, ?_, ?_, ?_⟩
  · intro h
    rcases h with h | h
    · constructor <;> simp [mainLogin, backendLogin, h]
    · constructor <;> simp [mainLogin, backendLogin, h]
  · intro u r hr
    simp [part1Login, hr]
  · intro u r hr
    simp [part0Login, hr]
  · simp [part1Login]
  · simp [part0Login]

/-- Concrete instance of `login_missing_fields`: an absent username is
rejected 400 by the main variant without consulting the store. -/
theorem login_missing_fields_inst :
    mainLogin ⟨[], 1⟩ none (some "x") "k" 0 =
      { status := 400, success := some false,
        error := some "Username and password are required" } :=
  ((login_missing_fields ⟨[], 1⟩ none (some "x") "k" 0).1 (Or.inl (by decide))).1

/-! ## Claim C9 -/

/-- Claim C9: `src/server.js` Register enforces an upper bound on the
password length absent from the spec — every password longer than 100
characters is rejected with 400 and an untouched store, and when the
username itself is valid the reported rule is "Password is too long". -/
theorem password_upper_bound (s1 s2 : Store) (u? : Option String) (p : String)
    (salt iat : Nat) (secret : String) (hlen : 100 < p.length) :
    (mainRegister s1 s2 u? (some p) salt iat secret).1.status = 400 ∧
    (mainRegister s1 s2 u? (some p) salt iat secret).2 = s2 ∧
    (validateUsername u? = none →
      (mainRegister s1 s2 u? (some p) salt iat secret).1.error =
        some "Password is too long") := by
  have hvp : validatePassword (some p) = some "Password is too long" := by
    rw [validatePassword, if_neg (by omega), if_pos hlen]
  cases hvu : validateUsername u? with
  | none => refine ⟨?_, ?_, fun _ => ?_⟩ <;> simp [mainRegister, hvu, hvp]
  | some e =>
    refine ⟨?_, ?_, fun hc => ?_⟩
    · simp [mainRegister, hvu]
    · simp [mainRegister, hvu]
    · cases hc

/-- Concrete instance of `password_upper_bound` at a 101-character
password. -/
theorem password_upper_bound_inst :
    (mainRegister ⟨[], 1⟩ ⟨[], 1⟩ (some "alice")
        (some (String.mk (List.replicate 101 'a'))) 0 0 "k").1.status = 400 ∧
    (mainRegister ⟨[], 1⟩ ⟨[], 1⟩ (some "alice")
        (some (String.mk (List.replicate 101 'a'))) 0 0 "k").1.error =
      some "Password is too long" :=
  ⟨(password_upper_bound ⟨[], 1⟩ ⟨[], 1⟩ (some "alice")
      (String.mk (List.replicate 101 'a')) 0 0 "k" (by decide)).1,
   (password_upper_bound ⟨[], 1⟩ ⟨[], 1⟩ (some "alice")
      (String.mk (List.replicate 101 'a')) 0 0 "k" (by decide)).2.2 (by decide)⟩

/-! ## Claim C10 -/

/-- Claim C10: CheckAuth never reads or writes the credential store —
in each variant its response is the same whatever the table state, the
table state is returned unchanged, and the main variant authenticates a
validly signed unexpired token even when the user record it names is
absent from the store (no re-fetch is performed). -/
theorem check_auth_store_frame (s s' : Store) (hdr : Option (List JwtStr))
    (secret : String) (now : Nat) :
    ((mainCheckAuthSt s hdr secret now).1 = (mainCheckAuthSt s' hdr secret now).1 ∧
     (mainCheckAuthSt s hdr secret now).2 = s) ∧
    ((backendCheckAuthSt s hdr secret now).1 = (backendCheckAuthSt s' hdr secret now).1 ∧
     (backendCheckAuthSt s hdr secret now).2 = s) ∧
    ((part0CheckAuthSt s hdr secret now).1 = (part0CheckAuthSt s' hdr secret now).1 ∧
     (part0CheckAuthSt s hdr secret now).2 = s) ∧
    (∀ uid c iat ttl, c.userId = some uid → findById s uid = none → now < iat + ttl →
      (mainCheckAuthSt s (some [.raw "Bearer", jwtSign c secret iat ttl]) secret now).1 =
        { isLoggedIn := some true, user := some ⟨c.userId, c.username⟩ }) := by
  refine ⟨⟨rfl, rfl⟩, ⟨rfl, rfl⟩, ⟨rfl, rfl⟩, ?_⟩
  intro uid c iat ttl _ _ hnow
  show mainCheckAuth (some [.raw "Bearer", jwtSign c secret iat ttl]) secret now = _
  exact mainCheckAuth_sign c secret iat ttl now hnow

/-- Concrete instance of `check_auth_store_frame`: a valid token naming
user id 7 authenticates against the empty store, which holds no user 7. -/
theorem check_auth_store_frame_inst :
    (mainCheckAuthSt ⟨[], 1⟩
        (some [.raw "Bearer", jwtSign ⟨some 7, none, some "ghost"⟩ "k" 0 604800]) "k" 3).1 =
      { isLoggedIn := some true, user := some ⟨some 7, some "ghost"⟩ } :=
  (check_auth_store_frame ⟨[], 1⟩ ⟨[], 1⟩ none "k" 3).2.2.2 7
    ⟨some 7, none, some "ghost"⟩ 0 604800 rfl (by decide) (by decide)
